import Mathlib

/-
Verification development for the call-builder core of py-stellar-base.

The sync classes (stellar_sdk/call_builder/call_builder_sync/call_builder.py together with
stellar_sdk/call_builder/base/base_call_builder.py) and the async classes
(stellar_sdk/call_builder/call_builder_async/call_builder.py and
stellar_sdk/call_builder_async/base_call_builder.py) carry the same query-construction,
pagination and error-mapping logic, differing only in suspension behaviour; a single shallow
embedding below covers both variants.

Python mutable state is embedded by explicit state passing: every mutating method takes the
builder state and returns the updated state.  Python dict values decoded from JSON are embedded
as the inductive JValue; dict-typed query parameters as insertion-ordered association lists with
unique keys, with dict assignment embedded as dictInsert.
-/

set_option autoImplicit false

namespace Stellar

/-- Decoded JSON values, the result of Response.json() in the source. -/
inductive JValue where
  | null
  | bool (b : Bool)
  | str (s : String)
  | num (n : Int)
  | obj (fields : List (String × JValue))
  | arr (elems : List JValue)

/-- Python truthiness of a decoded JSON value, as tested by the bare `if x:` checks in
_check_pageable: None, False, empty string, zero, empty dict and empty list are falsy. -/
def truthy : JValue → Bool
  | .null => false
  | .bool b => b
  | .str s => !s.isEmpty
  | .num n => n != 0
  | .obj fields => !fields.isEmpty
  | .arr elems => !elems.isEmpty

/-- Truthiness of an optional value: Python None (here Option.none) is falsy. -/
def truthyOpt : Option JValue → Bool
  | Option.none => false
  | some v => truthy v

/-- First-match lookup in a JSON object field list.  Keys of a Python dict are unique, so
first match is the dict lookup. -/
def lookupField : List (String × JValue) → String → Option JValue
  | [], _ => Option.none
  | (k, v) :: rest, key => if k = key then some v else lookupField rest key

/-- Embedding of Python dict.get(key) on a decoded JSON value.  The source only ever applies
this to values typed as dict (the response envelope of section 6 of the spec keeps _links,
prev and next as objects when present); on a non-object Python would raise AttributeError,
a malformed-envelope path no claim exercises, which this total model maps to absent. -/
def jGet : JValue → String → Option JValue
  | .obj fields, key => lookupField fields key
  | _, _ => Option.none

/-- Values accepted by _add_query_param, embedding the annotation
Union[str, float, int, bool, None] of the source.  The float case is omitted: no claim and no
call site in scope passes a float, and Python float formatting is not shallow-embeddable. -/
inductive ParamValue where
  | str (s : String)
  | int (i : Int)
  | bool (b : Bool)
  | none

/-- Builder state: the QueryState of the spec, the attribute set that BaseCallBuilder.__init__
creates.  The transport client is held by reference and never mutated; it is embedded as an
opaque identifier.  The prev_href and next_href attributes store whatever value
prev_page.get("href") returned, so they hold an optional decoded JSON value. -/
structure QueryState where
  client : Nat
  horizon_url : String
  params : List (String × String)
  endpoint : String
  prev_href : Option JValue
  next_href : Option JValue

/-- Embedding of Python dict assignment d[k] = v on an insertion-ordered association list:
an existing key keeps its position and gets the new value, a new key is appended. -/
def dictInsert : List (String × String) → String → String → List (String × String)
  | [], k, v => [(k, v)]
  | (k', v') :: rest, k, v =>
    if k' = k then (k, v) :: rest else (k', v') :: dictInsert rest k v

/-- Embedding of Python dict lookup d[k] on the association list. -/
def lookupParam : List (String × String) → String → Option String
  | [], _ => Option.none
  | (k', v') :: rest, k => if k' = k then some v' else lookupParam rest k

/-- Embedding of BaseCallBuilder._add_query_param: None is a no-op, True and False are caught
by identity checks and stored as the literal strings, anything else is stringified with str(). -/
def add_query_param (st : QueryState) (key : String) (value : ParamValue) : QueryState :=
  match value with
  | .none => st
  | .bool true => { st with params := dictInsert st.params key "true" }
  | .bool false => { st with params := dictInsert st.params key "false" }
  | .str s => { st with params := dictInsert st.params key s }
  | .int i => { st with params := dictInsert st.params key (toString i) }

/-- Embedding of BaseCallBuilder._add_query_params: applies _add_query_param per entry in
enumeration order. -/
def add_query_params (st : QueryState) (ps : List (String × ParamValue)) : QueryState :=
  ps.foldl (fun s kv => add_query_param s kv.1 kv.2) st

/-- Embedding of BaseCallBuilder.cursor: sets the cursor parameter and returns the builder. -/
def cursor (st : QueryState) (c : ParamValue) : QueryState :=
  add_query_param st "cursor" c

/-- Embedding of BaseCallBuilder.limit: sets the limit parameter and returns the builder. -/
def limit (st : QueryState) (l : Int) : QueryState :=
  add_query_param st "limit" (.int l)

/-- Embedding of BaseCallBuilder.order: stores "desc" when desc holds, else "asc". -/
def order (st : QueryState) (desc : Bool) : QueryState :=
  let o := if desc then "desc" else "asc"
  add_query_param st "order" (.str o)

/-- Embedding of the default argument of BaseCallBuilder.order: calling order with no
argument is order(True). -/
def order_default (st : QueryState) : QueryState :=
  order st true

/-- Embedding of BaseCallBuilder._check_pageable: reads the _links object of a decoded
response body; each of prev_href and next_href is assigned the result of page.get("href")
exactly when the corresponding page object is truthy. -/
def check_pageable (st : QueryState) (response : JValue) : QueryState :=
  let links := jGet response "_links"
  if !truthyOpt links then st
  else
    let prev_page := links.bind (fun l => jGet l "prev")
    let next_page := links.bind (fun l => jGet l "next")
    let st1 :=
      if truthyOpt prev_page then
        { st with prev_href := prev_page.bind (fun p => jGet p "href") }
      else st
    if truthyOpt next_page then
      { st1 with next_href := next_page.bind (fun p => jGet p "href") }
    else st1

/-- Typed errors raised by the executor, the taxonomy of section 7 of the spec and of
stellar_sdk.exceptions. -/
inductive ReqError where
  | connectionError
  | notFoundError
  | badRequestError
  | badResponseError
  | unknownRequestError
  | notPageableError
deriving DecidableEq

/-- Modelled from the spec: raise_request_exception lives in stellar_sdk/exceptions.py, which
is not under src; sections 4.2 and 7 of the specification give its mapping.  A success (2xx)
status raises nothing, 404 raises NotFoundError, the rest of 400 to 499 raises BadRequestError,
500 to 599 raises BadResponseError, and any other status raises UnknownRequestError. -/
def raise_request_exception (status : Nat) : Option ReqError :=
  if 200 ≤ status ∧ status < 300 then Option.none
  else if status = 404 then some .notFoundError
  else if 400 ≤ status ∧ status < 500 then some .badRequestError
  else if 500 ≤ status ∧ status < 600 then some .badResponseError
  else some .unknownRequestError

/-- Modelled from the spec: urljoin_with_query lives in stellar_sdk/utils.py, which is not
under src; section 4.2 says only that the request URL joins base_url and endpoint.  No claim
inspects the joined string, so the join is embedded as concatenation. -/
def urljoin_with_query (base path : String) : String :=
  base ++ path

/-- Outcome of one transport get: either no response was obtained (the client raises
ConnectionError) or a response with a status code and an already-decoded JSON body.
A body that fails JSON decoding is outside the claims and not modelled. -/
inductive TransportResult where
  | noResponse
  | response (status : Nat) (body : JValue)

/-- One HTTP request handed to the transport: the url argument and the params argument of
client.get.  The call method passes the builder params, next and prev pass None. -/
structure Request where
  url : JValue
  params : Option (List (String × String))

/-- The external transport collaborator of section 6 of the spec: get for one-shot requests
and stream for the live feed, the latter returning the unbounded event sequence as a function
from index to decoded record. -/
structure Transport where
  get : JValue → Option (List (String × String)) → TransportResult
  stream : String → List (String × String) → Nat → JValue

/-- Embedding of the private CallBuilder.__call helper: issues one get, applies
raise_request_exception to the status, and on success absorbs pagination links before
returning the decoded body.  The result carries the outcome, the builder state after the
operation, and the list of requests issued to the transport. -/
def call' (tr : Transport) (st : QueryState) (url : JValue)
    (params : Option (List (String × String))) :
    Except ReqError JValue × QueryState × List Request :=
  match tr.get url params with
  | .noResponse => (.error .connectionError, st, [⟨url, params⟩])
  | .response status body =>
    match raise_request_exception status with
    | some e => (.error e, st, [⟨url, params⟩])
    | Option.none => (.ok body, check_pageable st body, [⟨url, params⟩])

/-- Embedding of CallBuilder.call: joins horizon_url and endpoint and delegates to __call
with the current params. -/
def call (tr : Transport) (st : QueryState) :
    Except ReqError JValue × QueryState × List Request :=
  call' tr st (.str (urljoin_with_query st.horizon_url st.endpoint)) (some st.params)

/-- Embedding of CallBuilder.next: raises NotPageableError when next_href is None, issuing no
request; otherwise delegates to __call with the stored link and params None. -/
def next (tr : Transport) (st : QueryState) :
    Except ReqError JValue × QueryState × List Request :=
  match st.next_href with
  | Option.none => (.error .notPageableError, st, [])
  | some href => call' tr st href Option.none

/-- Embedding of CallBuilder.prev: symmetric to next, using prev_href. -/
def prev (tr : Transport) (st : QueryState) :
    Except ReqError JValue × QueryState × List Request :=
  match st.prev_href with
  | Option.none => (.error .notPageableError, st, [])
  | some href => call' tr st href Option.none

/-- Embedding of CallBuilder.stream: opens the client stream on the joined url with the
current params and returns the event sequence.  The method body performs no assignment, so
the builder state component of the result is the input state. -/
def stream (tr : Transport) (st : QueryState) : (Nat → JValue) × QueryState :=
  (tr.stream (urljoin_with_query st.horizon_url st.endpoint) st.params, st)

/-- Embedding of the abstract CallBuilder constructor (sync CallBuilder.__init__ and async
BaseCallBuilder.__init__): params start empty, endpoint starts empty, both links start None.
The isinstance check of the client argument is construction-time validation outside the
embedded state. -/
def mkCallBuilder (horizon_url : String) (client : Nat) : QueryState :=
  { client := client, horizon_url := horizon_url, params := [], endpoint := "",
    prev_href := Option.none, next_href := Option.none }

/-- Embedding of RootCallBuilder.__init__: forwards to the base constructor and sets no
endpoint, so endpoint keeps the empty string of the base constructor. -/
def mkRootCallBuilder (horizon_url : String) (client : Nat) : QueryState :=
  mkCallBuilder horizon_url client

/-- Embedding of AccountsCallBuilder.__init__: forwards construction to the base chain and
then fixes the endpoint to the accounts resource path. -/
def mkAccountsCallBuilder (horizon_url : String) (client : Nat) : QueryState :=
  { mkCallBuilder horizon_url client with endpoint := "accounts" }

/-- One direction of Python dict equality on association lists: every entry of a maps to the
same value in b. -/
def dictSubset (a b : List (String × String)) : Bool :=
  a.all (fun kv => lookupParam b kv.1 == some kv.2)

/-- Embedding of Python dict equality self.params == other.params: same key-value contents
regardless of insertion order. -/
def dictEq (a b : List (String × String)) : Bool :=
  dictSubset a b && dictSubset b a

/-- Embedding of CallBuilder.__eq__ for two builders of the same concrete class: compares the
client reference, the params dict contents, the endpoint and the horizon_url, and nothing
else. -/
def builderEq (a b : QueryState) : Bool :=
  a.client == b.client && dictEq a.params b.params
    && a.endpoint == b.endpoint && a.horizon_url == b.horizon_url

/-- Well-formedness of a params association list as the image of a Python dict: keys are
unique.  The constructors establish it and dictInsert preserves it. -/
def paramsWF (st : QueryState) : Prop :=
  (st.params.map Prod.fst).Nodup

/-- String stored by _add_query_param for each accepted value, absent for the None no-op.
Used to state the overwrite clause of the set_param contract. -/
def storedValue : ParamValue → Option String
  | .none => Option.none
  | .bool true => some "true"
  | .bool false => some "false"
  | .str s => some s
  | .int i => some (toString i)

/-- Transport answering every get with one fixed result, used to instantiate the executor
theorems at concrete responses. -/
def constTransport (r : TransportResult) : Transport :=
  { get := fun _ _ => r, stream := fun _ _ _ => .null }

/-- Sample response body whose pagination envelope carries a next link and omits prev. -/
def sampleNextOnlyBody : List (String × JValue) :=
  [("_links", .obj [("next", .obj [("href", .str "https://x/accounts?cursor=5")])])]

/-- Sample builder holding a prev link stored by a prior response. -/
def sampleStaleBuilder : QueryState :=
  { mkAccountsCallBuilder "https://h/" 0 with prev_href := some (.str "https://old/") }

/-- Sample response whose prev and next link objects are truthy but lack an href field. -/
def sampleNoHrefBody : List (String × JValue) :=
  [("_links", .obj [("prev", .obj [("rel", .str "x")]),
                    ("next", .obj [("rel", .str "y")])])]

theorem lookupParam_dictInsert_self (l : List (String × String)) (k v : String) :
    lookupParam (dictInsert l k v) k = some v := by
  induction l with
  | nil => simp [dictInsert, lookupParam]
  | cons hd tl ih =>
    obtain ⟨k', v'⟩ := hd
    by_cases h : k' = k
    · simp [dictInsert, h, lookupParam]
    · simp [dictInsert, h, lookupParam, ih]

theorem lookupParam_dictInsert_ne (l : List (String × String)) (k v k2 : String)
    (h : k2 ≠ k) : lookupParam (dictInsert l k v) k2 = lookupParam l k2 := by
  induction l with
  | nil => simp [dictInsert, lookupParam, Ne.symm h]
  | cons hd tl ih =>
    obtain ⟨k', v'⟩ := hd
    by_cases hk : k' = k
    · subst hk
      simp [dictInsert, lookupParam, Ne.symm h]
    · simp [dictInsert, hk, lookupParam, ih]

theorem dictInsert_idem (l : List (String × String)) (k v : String) :
    dictInsert (dictInsert l k v) k v = dictInsert l k v := by
  induction l with
  | nil => simp [dictInsert]
  | cons hd tl ih =>
    obtain ⟨k', v'⟩ := hd
    by_cases h : k' = k
    · simp [dictInsert, h]
    · simp [dictInsert, h, ih]

theorem map_fst_dictInsert (l : List (String × String)) (k v : String) :
    (dictInsert l k v).map Prod.fst =
      if k ∈ l.map Prod.fst then l.map Prod.fst else l.map Prod.fst ++ [k] := by
  induction l with
  | nil => simp [dictInsert]
  | cons hd tl ih =>
    obtain ⟨k', v'⟩ := hd
    by_cases h : k' = k
    · simp [dictInsert, h]
    · by_cases hm : k ∈ tl.map Prod.fst
      · simp [dictInsert, h, ih, hm, Ne.symm h]
      · simp [dictInsert, h, ih, hm, Ne.symm h]

theorem nodup_keys_dictInsert (l : List (String × String)) (k v : String)
    (h : (l.map Prod.fst).Nodup) : ((dictInsert l k v).map Prod.fst).Nodup := by
  rw [map_fst_dictInsert]
  by_cases hk : k ∈ l.map Prod.fst
  · simpa [hk]
  · simp [hk, List.nodup_append, h]

theorem mem_of_lookupParam_eq_some (l : List (String × String)) (k v : String)
    (h : lookupParam l k = some v) : (k, v) ∈ l := by
  induction l with
  | nil => simp [lookupParam] at h
  | cons hd tl ih =>
    obtain ⟨k', v'⟩ := hd
    by_cases hk : k' = k
    · subst hk
      simp [lookupParam] at h
      simp [h]
    · simp [lookupParam, hk] at h
      exact List.mem_cons_of_mem _ (ih h)

theorem lookupParam_eq_some_of_mem (l : List (String × String)) (k v : String)
    (hnd : (l.map Prod.fst).Nodup) (h : (k, v) ∈ l) : lookupParam l k = some v := by
  induction l with
  | nil => simp at h
  | cons hd tl ih =>
    obtain ⟨k', v'⟩ := hd
    simp only [List.map_cons, List.nodup_cons] at hnd
    rcases List.mem_cons.mp h with h1 | h1
    · obtain ⟨rfl, rfl⟩ := Prod.mk.injEq .. ▸ h1
      simp [lookupParam]
    · by_cases hk : k' = k
      · subst hk
        exact absurd (List.mem_map_of_mem Prod.fst h1) hnd.1
      · simp only [lookupParam, hk, if_false]
        exact ih hnd.2 h1

theorem dictSubset_iff (a b : List (String × String)) :
    dictSubset a b = true ↔ ∀ kv ∈ a, lookupParam b kv.1 = some kv.2 := by
  simp [dictSubset, List.all_eq_true]

theorem dictEq_iff_lookup (a b : List (String × String))
    (ha : (a.map Prod.fst).Nodup) (hb : (b.map Prod.fst).Nodup) :
    dictEq a b = true ↔ ∀ k, lookupParam a k = lookupParam b k := by
  constructor
  · intro h k
    rw [dictEq, Bool.and_eq_true] at h
    have h1 := (dictSubset_iff a b).mp h.1
    have h2 := (dictSubset_iff b a).mp h.2
    cases hla : lookupParam a k with
    | some v =>
      exact (h1 (k, v) (mem_of_lookupParam_eq_some a k v hla)).symm
    | none =>
      cases hlb : lookupParam b k with
      | none => rfl
      | some w =>
        have := h2 (k, w) (mem_of_lookupParam_eq_some b k w hlb)
        simp only [this] at hla
        exact absurd hla (by simp)
  · intro h
    rw [dictEq, Bool.and_eq_true]
    refine ⟨(dictSubset_iff a b).mpr ?_, (dictSubset_iff b a).mpr ?_⟩
    · intro kv hm
      rw [← h]
      exact lookupParam_eq_some_of_mem a kv.1 kv.2 ha (by simpa using hm)
    · intro kv hm
      rw [h]
      exact lookupParam_eq_some_of_mem b kv.1 kv.2 hb (by simpa using hm)

theorem lookupField_ne_nil {fields : List (String × JValue)} {key : String} {v : JValue}
    (h : lookupField fields key = some v) : fields.isEmpty = false := by
  cases fields with
  | nil => simp [lookupField] at h
  | cons => rfl

theorem check_pageable_obj (st : QueryState) (rf lf : List (String × JValue))
    (hl : lookupField rf "_links" = some (.obj lf)) :
    check_pageable st (.obj rf) =
      (if truthyOpt (lookupField lf "next") = true then
        { (if truthyOpt (lookupField lf "prev") = true then
            { st with prev_href := (lookupField lf "prev").bind (fun p => jGet p "href") }
           else st) with
          next_href := (lookupField lf "next").bind (fun p => jGet p "href") }
       else
        (if truthyOpt (lookupField lf "prev") = true then
            { st with prev_href := (lookupField lf "prev").bind (fun p => jGet p "href") }
         else st)) := by
  unfold check_pageable
  simp only [jGet, hl]
  cases lf with
  | nil => simp [truthyOpt, truthy, lookupField]
  | cons hd tl => simp [truthyOpt, truthy, jGet]

/-- C4 (amended): immediately after construction every concrete builder has empty params;
the endpoint equals the resource path the concrete constructor fixes, which is the non-empty
string accounts for AccountsCallBuilder but stays the empty string for RootCallBuilder,
whose constructor sets no endpoint. -/
theorem C4_construction_state (u : String) (c : Nat) :
    (mkAccountsCallBuilder u c).endpoint = "accounts"
    ∧ (mkAccountsCallBuilder u c).endpoint ≠ ""
    ∧ (mkAccountsCallBuilder u c).params = []
    ∧ (mkRootCallBuilder u c).params = []
    ∧ (mkRootCallBuilder u c).endpoint = "" := by
  refine ⟨rfl, by simp [mkAccountsCallBuilder, mkCallBuilder], rfl, rfl, rfl⟩

/-- C4 counterexample: the concrete RootCallBuilder violates the claim that every concrete
builder has a non-empty endpoint after construction: its endpoint is the empty string, as the
repository test test_root_call_builder.py asserts. -/
theorem C4_counterexample :
    ¬ ((mkRootCallBuilder "https://horizon-testnet.stellar.org/" 0).endpoint ≠ ""
       ∧ (mkRootCallBuilder "https://horizon-testnet.stellar.org/" 0).params = []) := by
  intro h
  exact h.1 rfl

/-- C5: set_param with an absent value is a no-op leaving params unchanged; True stores the
literal string true and False stores false; a string is stored as itself and an int is
stringified; and for any non-absent value the stored value overwrites any prior value for
the key, in any builder state. -/
theorem C5_set_param_semantics (st : QueryState) (k : String) (v : ParamValue) :
    (add_query_param st k .none = st)
    ∧ (lookupParam (add_query_param st k (.bool true)).params k = some "true")
    ∧ (lookupParam (add_query_param st k (.bool false)).params k = some "false")
    ∧ (∀ s : String, lookupParam (add_query_param st k (.str s)).params k = some s)
    ∧ (∀ i : Int, lookupParam (add_query_param st k (.int i)).params k = some (toString i))
    ∧ (v ≠ .none →
        ∀ st0 : QueryState, lookupParam (add_query_param st0 k v).params k = storedValue v) := by
  refine ⟨rfl, ?_, ?_, ?_, ?_, ?_⟩
  · exact lookupParam_dictInsert_self st.params k "true"
  · exact lookupParam_dictInsert_self st.params k "false"
  · intro s
    exact lookupParam_dictInsert_self st.params k s
  · intro i
    exact lookupParam_dictInsert_self st.params k (toString i)
  · intro hv st0
    cases v with
    | str s => exact lookupParam_dictInsert_self st0.params k s
    | int i => exact lookupParam_dictInsert_self st0.params k (toString i)
    | bool b => cases b <;> exact lookupParam_dictInsert_self st0.params k _
    | none => exact absurd rfl hv

/-- C5 witness: the set_param contract instantiated at a concrete builder, key and value. -/
theorem C5_set_param_semantics_witness :
    lookupParam
      (add_query_param (mkAccountsCallBuilder "https://h/" 0) "k" (.str "old")).params
      "k" = storedValue (.str "old") :=
  (C5_set_param_semantics (mkAccountsCallBuilder "https://h/" 0) "k" (.str "old")).2.2.2.2.2
    (by intro h; cases h) (mkAccountsCallBuilder "https://h/" 0)

/-- C9: booleans are detected by identity in _add_query_param, so the int values one and
zero, although equal to True and False under Python numeric comparison, take the stringify
branch and are stored as the strings 1 and 0, not as true and false. -/
theorem C9_int_one_zero_stringified (st : QueryState) (k : String) :
    lookupParam (add_query_param st k (.int 1)).params k = some "1"
    ∧ lookupParam (add_query_param st k (.int 0)).params k = some "0" := by
  constructor
  · simpa using lookupParam_dictInsert_self st.params k (toString (1 : Int))
  · simpa using lookupParam_dictInsert_self st.params k (toString (0 : Int))

/-- C6: cursor, limit and order mutate only the params field and return the mutated builder
itself; each is idempotent under repeated identical calls, the last value wins and no
duplicate key is created; order stores desc for true, asc for false, and the no-argument
form behaves as order with true. -/
theorem C6_chaining_setters (st : QueryState) (v : ParamValue) (i : Int) (b : Bool) :
    (cursor st v = { st with params := (cursor st v).params })
    ∧ (limit st i = { st with params := (limit st i).params })
    ∧ (order st b = { st with params := (order st b).params })
    ∧ (cursor (cursor st v) v = cursor st v)
    ∧ (limit (limit st i) i = limit st i)
    ∧ (order (order st b) b = order st b)
    ∧ (paramsWF st → paramsWF (cursor st v) ∧ paramsWF (limit st i) ∧ paramsWF (order st b))
    ∧ (lookupParam (order st true).params "order" = some "desc")
    ∧ (lookupParam (order st false).params "order" = some "asc")
    ∧ (order_default st = order st true) := by
  refine ⟨?_, rfl, ?_, ?_, ?_, ?_, ?_, ?_, ?_, rfl⟩
  · cases v with
    | none => rfl
    | str s => rfl
    | int j => rfl
    | bool c => cases c <;> rfl
  · cases b <;> rfl
  · cases v with
    | none => rfl
    | str s => simp [cursor, add_query_param, dictInsert_idem]
    | int j => simp [cursor, add_query_param, dictInsert_idem]
    | bool c => cases c <;> simp [cursor, add_query_param, dictInsert_idem]
  · simp [limit, add_query_param, dictInsert_idem]
  · cases b <;> simp [order, add_query_param, dictInsert_idem]
  · intro hwf
    refine ⟨?_, ?_, ?_⟩
    · cases v with
      | none => exact hwf
      | str s => exact nodup_keys_dictInsert st.params "cursor" s hwf
      | int j => exact nodup_keys_dictInsert st.params "cursor" (toString j) hwf
      | bool c => cases c <;> exact nodup_keys_dictInsert st.params "cursor" _ hwf
    · exact nodup_keys_dictInsert st.params "limit" (toString i) hwf
    · cases b <;> exact nodup_keys_dictInsert st.params "order" _ hwf
  · exact lookupParam_dictInsert_self st.params "order" "desc"
  · exact lookupParam_dictInsert_self st.params "order" "asc"

/-- C6 witness: the chaining contract instantiated at a freshly constructed builder, where
the well-formedness hypothesis on params holds by construction. -/
theorem C6_chaining_setters_witness :
    paramsWF (cursor (mkAccountsCallBuilder "https://h/" 0) (.str "c"))
    ∧ paramsWF (limit (mkAccountsCallBuilder "https://h/" 0) 10)
    ∧ paramsWF (order (mkAccountsCallBuilder "https://h/" 0) true) :=
  (C6_chaining_setters (mkAccountsCallBuilder "https://h/" 0) (.str "c") 10 true).2.2.2.2.2.2.1
    (by simp [paramsWF, mkAccountsCallBuilder, mkCallBuilder])

/-- C2: after a successful call the two pagination links are absorbed independently: a link
is overwritten only when the corresponding link object is present in the response, an
omitted side keeps the value stored from a prior response, and a response with no _links
object leaves both links unchanged; when a present link object carries an href, that href
is stored. -/
theorem C2_pagination_absorption (st : QueryState) (rf : List (String × JValue)) :
    (truthyOpt (lookupField rf "_links") = false → check_pageable st (.obj rf) = st)
    ∧ (∀ lf : List (String × JValue), lookupField rf "_links" = some (.obj lf) →
        ((lookupField lf "prev" = Option.none →
            (check_pageable st (.obj rf)).prev_href = st.prev_href)
         ∧ (lookupField lf "next" = Option.none →
            (check_pageable st (.obj rf)).next_href = st.next_href)
         ∧ ((check_pageable st (.obj rf)).prev_href ≠ st.prev_href →
            ∃ p, lookupField lf "prev" = some p)
         ∧ ((check_pageable st (.obj rf)).next_href ≠ st.next_href →
            ∃ p, lookupField lf "next" = some p)
         ∧ (∀ (pf : List (String × JValue)) (hv : JValue),
              lookupField lf "prev" = some (.obj pf) →
              lookupField pf "href" = some hv →
              (check_pageable st (.obj rf)).prev_href = some hv)
         ∧ (∀ (nf : List (String × JValue)) (hv : JValue),
              lookupField lf "next" = some (.obj nf) →
              lookupField nf "href" = some hv →
              (check_pageable st (.obj rf)).next_href = some hv))) := by
  constructor
  · intro h
    unfold check_pageable
    simp [jGet, h]
  · intro lf hl
    rw [check_pageable_obj st rf lf hl]
    refine ⟨?_, ?_, ?_, ?_, ?_, ?_⟩
    · intro hp
      simp [hp, truthyOpt]
      split <;> rfl
    · intro hn
      simp [hn, truthyOpt]
      split <;> rfl
    · intro hne
      cases hp : lookupField lf "prev" with
      | none =>
        exfalso
        apply hne
        simp [hp, truthyOpt]
        split <;> rfl
      | some p => exact ⟨p, rfl⟩
    · intro hne
      cases hn : lookupField lf "next" with
      | none =>
        exfalso
        apply hne
        simp [hn, truthyOpt]
        split <;> rfl
      | some p => exact ⟨p, rfl⟩
    · intro pf hv hp hh
      have hpe : pf.isEmpty = false := lookupField_ne_nil hh
      split <;> simp [hp, truthyOpt, truthy, hpe, jGet, hh]
    · intro nf hv hn hh
      have hne : nf.isEmpty = false := lookupField_ne_nil hh
      simp [hn, truthyOpt, truthy, hne, jGet, hh]

/-- C2 witness: a response carrying only a next link overwrites next_href with that href and
leaves the previously stored prev_href in place. -/
theorem C2_pagination_absorption_witness :
    (check_pageable sampleStaleBuilder (.obj sampleNextOnlyBody)).prev_href
        = sampleStaleBuilder.prev_href
    ∧ (check_pageable sampleStaleBuilder (.obj sampleNextOnlyBody)).next_href
        = some (.str "https://x/accounts?cursor=5") := by
  have h := (C2_pagination_absorption sampleStaleBuilder sampleNextOnlyBody).2
    [("next", .obj [("href", .str "https://x/accounts?cursor=5")])] rfl
  exact ⟨h.1 rfl, h.2.2.2.2.2 [("href", .str "https://x/accounts?cursor=5")]
    (.str "https://x/accounts?cursor=5") rfl rfl⟩

/-- C10: a truthy prev or next link object that lacks an href field sets the corresponding
stored link to absent, discarding any link a prior response stored: the overwrite rule is
keyed on the presence of the link object, not of its href. -/
theorem C10_link_without_href (st : QueryState) (rf lf : List (String × JValue)) :
    (∀ pf : List (String × JValue), lookupField rf "_links" = some (.obj lf) →
        lookupField lf "prev" = some (.obj pf) → truthy (.obj pf) = true →
        lookupField pf "href" = Option.none →
        (check_pageable st (.obj rf)).prev_href = Option.none)
    ∧ (∀ nf : List (String × JValue), lookupField rf "_links" = some (.obj lf) →
        lookupField lf "next" = some (.obj nf) → truthy (.obj nf) = true →
        lookupField nf "href" = Option.none →
        (check_pageable st (.obj rf)).next_href = Option.none) := by
  constructor
  · intro pf hl hp ht hh
    rw [check_pageable_obj st rf lf hl]
    split <;> simp [hp, truthyOpt, ht, jGet, hh]
  · intro nf hl hn ht hh
    rw [check_pageable_obj st rf lf hl]
    simp [hn, truthyOpt, ht, jGet, hh]

/-- C10 witness: a response whose prev and next link objects lack href clears both stored
links on a builder that held a prev link from a prior response. -/
theorem C10_link_without_href_witness :
    (check_pageable sampleStaleBuilder (.obj sampleNoHrefBody)).prev_href = Option.none
    ∧ (check_pageable sampleStaleBuilder (.obj sampleNoHrefBody)).next_href = Option.none := by
  have h := C10_link_without_href sampleStaleBuilder sampleNoHrefBody
    [("prev", .obj [("rel", .str "x")]), ("next", .obj [("rel", .str "y")])]
  exact ⟨h.1 [("rel", .str "x")] rfl rfl rfl rfl, h.2 [("rel", .str "y")] rfl rfl rfl rfl⟩

/-- C1: call maps the transport outcome to exactly one result: no response fails with
ConnectionError, status 404 with NotFoundError, another status in 400 to 499 with
BadRequestError, a status in 500 to 599 with BadResponseError, any other non-success status
with UnknownRequestError, and a success status returns the decoded JSON body after absorbing
its pagination links. -/
theorem C1_status_mapping (tr : Transport) (st : QueryState) :
    (tr.get (.str (urljoin_with_query st.horizon_url st.endpoint)) (some st.params)
        = .noResponse → (call tr st).1 = .error .connectionError)
    ∧ (∀ body : JValue,
        tr.get (.str (urljoin_with_query st.horizon_url st.endpoint)) (some st.params)
          = .response 404 body → (call tr st).1 = .error .notFoundError)
    ∧ (∀ (s : Nat) (body : JValue), 400 ≤ s → s < 500 → s ≠ 404 →
        tr.get (.str (urljoin_with_query st.horizon_url st.endpoint)) (some st.params)
          = .response s body → (call tr st).1 = .error .badRequestError)
    ∧ (∀ (s : Nat) (body : JValue), 500 ≤ s → s < 600 →
        tr.get (.str (urljoin_with_query st.horizon_url st.endpoint)) (some st.params)
          = .response s body → (call tr st).1 = .error .badResponseError)
    ∧ (∀ (s : Nat) (body : JValue), s < 200 ∨ (300 ≤ s ∧ s < 400) ∨ 600 ≤ s →
        tr.get (.str (urljoin_with_query st.horizon_url st.endpoint)) (some st.params)
          = .response s body → (call tr st).1 = .error .unknownRequestError)
    ∧ (∀ (s : Nat) (bf : List (String × JValue)), 200 ≤ s → s < 300 →
        tr.get (.str (urljoin_with_query st.horizon_url st.endpoint)) (some st.params)
          = .response s (.obj bf) →
        call tr st = (.ok (.obj bf), check_pageable st (.obj bf),
          [⟨.str (urljoin_with_query st.horizon_url st.endpoint), some st.params⟩])) := by
  refine ⟨?_, ?_, ?_, ?_, ?_, ?_⟩
  · intro h
    simp [call, call', h]
  · intro body h
    have hr : raise_request_exception 404 = some .notFoundError := by decide
    simp [call, call', h, hr]
  · intro s body h400 h500 hne h
    have hr : raise_request_exception s = some .badRequestError := by
      unfold raise_request_exception
      rw [if_neg (by omega), if_neg hne, if_pos (by omega)]
    simp [call, call', h, hr]
  · intro s body h500 h600 h
    have hr : raise_request_exception s = some .badResponseError := by
      unfold raise_request_exception
      rw [if_neg (by omega), if_neg (by omega), if_neg (by omega), if_pos (by omega)]
    simp [call, call', h, hr]
  · intro s body hs h
    have hr : raise_request_exception s = some .unknownRequestError := by
      unfold raise_request_exception
      rw [if_neg (by omega), if_neg (by omega), if_neg (by omega), if_neg (by omega)]
    simp [call, call', h, hr]
  · intro s bf h200 h300 h
    have hr : raise_request_exception s = Option.none := by
      unfold raise_request_exception
      rw [if_pos (by omega)]
    simp [call, call', h, hr]

/-- C1 witness: the status mapping instantiated at mock transports returning no response and
the statuses 404, 400, 503, 302 and 200. -/
theorem C1_status_mapping_witness :
    (call (constTransport .noResponse) (mkAccountsCallBuilder "https://h/" 0)).1
        = .error .connectionError
    ∧ (call (constTransport (.response 404 .null)) (mkAccountsCallBuilder "https://h/" 0)).1
        = .error .notFoundError
    ∧ (call (constTransport (.response 400 .null)) (mkAccountsCallBuilder "https://h/" 0)).1
        = .error .badRequestError
    ∧ (call (constTransport (.response 503 .null)) (mkAccountsCallBuilder "https://h/" 0)).1
        = .error .badResponseError
    ∧ (call (constTransport (.response 302 .null)) (mkAccountsCallBuilder "https://h/" 0)).1
        = .error .unknownRequestError
    ∧ (call (constTransport (.response 200 (.obj []))) (mkAccountsCallBuilder "https://h/" 0)).1
        = .ok (.obj []) := by
  refine ⟨(C1_status_mapping _ _).1 rfl,
    (C1_status_mapping _ _).2.1 .null rfl,
    (C1_status_mapping _ _).2.2.1 400 .null (by omega) (by omega) (by omega) rfl,
    (C1_status_mapping _ _).2.2.2.1 503 .null (by omega) (by omega) rfl,
    (C1_status_mapping _ _).2.2.2.2.1 302 .null (by omega) rfl,
    congrArg Prod.fst ((C1_status_mapping _ _).2.2.2.2.2 200 [] (by omega) (by omega) rfl)⟩

/-- C3: next and prev fail with NotPageableError and issue no request when the corresponding
stored link is absent; when it is present they delegate to the same private request helper
call uses, passing the stored link as the url and None as params, so the single issued
request carries the link url with no query parameters appended and the status mapping and
pagination absorption are those of call. -/
theorem C3_next_prev (tr : Transport) (st : QueryState) :
    (st.next_href = Option.none → next tr st = (.error .notPageableError, st, []))
    ∧ (∀ href, st.next_href = some href →
        next tr st = call' tr st href Option.none
        ∧ (next tr st).2.2 = [⟨href, Option.none⟩])
    ∧ (st.prev_href = Option.none → prev tr st = (.error .notPageableError, st, []))
    ∧ (∀ href, st.prev_href = some href →
        prev tr st = call' tr st href Option.none
        ∧ (prev tr st).2.2 = [⟨href, Option.none⟩]) := by
  refine ⟨?_, ?_, ?_, ?_⟩
  · intro h
    simp [next, h]
  · intro href h
    refine ⟨by simp [next, h], ?_⟩
    simp only [next, h]
    cases htr : tr.get href Option.none with
    | noResponse => simp [call', htr]
    | response status body =>
      cases hr : raise_request_exception status <;> simp [call', htr, hr]
  · intro h
    simp [prev, h]
  · intro href h
    refine ⟨by simp [prev, h], ?_⟩
    simp only [prev, h]
    cases htr : tr.get href Option.none with
    | noResponse => simp [call', htr]
    | response status body =>
      cases hr : raise_request_exception status <;> simp [call', htr, hr]

/-- C3 witness: next on a builder with no stored next link fails with NotPageableError and
issues no request, and prev on a builder holding a prev link issues exactly one request at
that link with params None. -/
theorem C3_next_prev_witness :
    next (constTransport .noResponse) (mkRootCallBuilder "https://h/" 0)
      = (.error .notPageableError, mkRootCallBuilder "https://h/" 0, [])
    ∧ (prev (constTransport .noResponse) sampleStaleBuilder).2.2
      = [⟨.str "https://old/", Option.none⟩] :=
  ⟨(C3_next_prev _ _).1 rfl, ((C3_next_prev _ _).2.2.2 (.str "https://old/") rfl).2⟩

/-- C7: two builders of the same concrete class compare equal exactly when they share the
transport client reference, the params dict contents, the endpoint and the horizon url; the
stored pagination links play no role in equality. -/
theorem C7_equality (a b : QueryState) (ha : paramsWF a) (hb : paramsWF b) :
    (builderEq a b = true ↔
      (a.client = b.client ∧ (∀ k, lookupParam a.params k = lookupParam b.params k)
        ∧ a.endpoint = b.endpoint ∧ a.horizon_url = b.horizon_url))
    ∧ (∀ p n p2 n2 : Option JValue,
        builderEq { a with prev_href := p, next_href := n }
                  { b with prev_href := p2, next_href := n2 } = builderEq a b) := by
  constructor
  · rw [builderEq]
    simp only [Bool.and_eq_true, beq_iff_eq]
    rw [dictEq_iff_lookup a.params b.params ha hb]
    tauto
  · intro p n p2 n2
    rfl

/-- C7 witness: two freshly constructed accounts builders over the same client compare
equal, and changing only the stored links of one of them leaves the comparison unchanged. -/
theorem C7_equality_witness :
    builderEq (mkAccountsCallBuilder "https://h/" 0) (mkAccountsCallBuilder "https://h/" 0)
      = true
    ∧ builderEq
        { mkAccountsCallBuilder "https://h/" 0 with
            prev_href := some (.str "p"), next_href := some (.str "n") }
        { mkAccountsCallBuilder "https://h/" 0 with
            prev_href := Option.none, next_href := Option.none }
      = builderEq (mkAccountsCallBuilder "https://h/" 0)
          (mkAccountsCallBuilder "https://h/" 0) := by
  have h := C7_equality (mkAccountsCallBuilder "https://h/" 0)
    (mkAccountsCallBuilder "https://h/" 0)
    (by simp [paramsWF, mkAccountsCallBuilder, mkCallBuilder])
    (by simp [paramsWF, mkAccountsCallBuilder, mkCallBuilder])
  exact ⟨h.1.mpr ⟨rfl, fun k => rfl, rfl, rfl⟩,
    h.2 (some (.str "p")) (some (.str "n")) Option.none Option.none⟩

/-- C8: stream neither reads nor writes the stored pagination links: the builder state after
stream is exactly the state before, the opened channel does not depend on the stored links,
and the chaining setters leave the links untouched as well, so among the builder operations
only call, next and prev update them. -/
theorem C8_stream_frame (tr : Transport) (st : QueryState) (v : ParamValue) (i : Int)
    (b : Bool) (key : String) :
    ((stream tr st).2 = st)
    ∧ (∀ p n : Option JValue,
        (stream tr { st with prev_href := p, next_href := n }).1 = (stream tr st).1)
    ∧ ((cursor st v).prev_href = st.prev_href ∧ (cursor st v).next_href = st.next_href)
    ∧ ((limit st i).prev_href = st.prev_href ∧ (limit st i).next_href = st.next_href)
    ∧ ((order st b).prev_href = st.prev_href ∧ (order st b).next_href = st.next_href)
    ∧ ((add_query_param st key v).prev_href = st.prev_href
        ∧ (add_query_param st key v).next_href = st.next_href) := by
  refine ⟨rfl, fun p n => rfl, ?_, ⟨rfl, rfl⟩, ?_, ?_⟩
  · cases v with
    | none => exact ⟨rfl, rfl⟩
    | str s => exact ⟨rfl, rfl⟩
    | int j => exact ⟨rfl, rfl⟩
    | bool c => cases c <;> exact ⟨rfl, rfl⟩
  · cases b <;> exact ⟨rfl, rfl⟩
  · cases v with
    | none => exact ⟨rfl, rfl⟩
    | str s => exact ⟨rfl, rfl⟩
    | int j => exact ⟨rfl, rfl⟩
    | bool c => cases c <;> exact ⟨rfl, rfl⟩

end Stellar
